import Mathlib

/-!
Verification of the HLL_Map_Switcher RCON v2 client
(`src/utils/api_client.py`) against its specification.

The development shallowly embeds the client's pure core:
* the wire codec (`_write` framing, `_read`/`_read_exact` unframing,
  `_xor` obfuscation),
* the response processing of `_send_command` (message-id correlation and
  status-code check),
* the login step of `_perform_handshake` and the request payload builder,
* the registry operations `get_current_map`, `set_map` and
  `_fetch_server_names` of `HLLAPIClient`, parameterised by the outcome of
  the network exchanges they perform.

Bytes are modelled as `Nat` (values below 256 on real inputs; the XOR and
framing arithmetic is stated without needing the bound except where noted).
Python exceptions are modelled with `Except`.
-/

/-- JSON values as produced by Python's `json.loads`.  Numbers are modelled
as integers (the protocol's status codes and the claims under study only
involve integral numbers); object members keep their textual order. -/
inductive Json where
  | null : Json
  | bool (b : Bool) : Json
  | num (n : Int) : Json
  | str (s : String) : Json
  | arr (xs : List Json) : Json
  | obj (xs : List (String × Json)) : Json

/-- Python truthiness of a decoded JSON value (`if value:`):
`None`, `False`, `0`, `""`, `[]` and `\x7b\x7d` are falsy. -/
def Json.truthy : Json → Bool
  | .null => false
  | .bool b => b
  | .num n => n != 0
  | .str s => s != ""
  | .arr xs => !xs.isEmpty
  | .obj xs => !xs.isEmpty

/-- `dict.get` on a decoded JSON object (claims under study never involve
duplicate keys, so first-match lookup is adequate). -/
def lookupJson (k : String) : List (String × Json) → Option Json
  | [] => none
  | p :: rest => if p.1 = k then some p.2 else lookupJson k rest

/-- The opening-brace character, kept as a named constant. -/
def lbrace : Char := Char.ofNat 123

/-- The closing-brace character, kept as a named constant. -/
def rbrace : Char := Char.ofNat 125

/-- ASCII whitespace as stripped by Python's `str.strip()` (the claims only
exercise ASCII data). -/
def pyIsSpace (c : Char) : Bool :=
  c = ' ' || c = '\t' || c = '\n' || c = '\r' || c = '\x0b' || c = '\x0c'

/-- Python `str.strip()`: drop leading and trailing whitespace. -/
def pyStrip (s : String) : String :=
  (((s.toList.dropWhile pyIsSpace).reverse.dropWhile pyIsSpace).reverse).asString

/-- Python `str.replace("\x00", "")`: remove every NUL character. -/
def removeNul (s : String) : String :=
  (s.toList.filter (fun c => c ≠ '\x00')).asString

/-- JSON insignificant whitespace. -/
def jsonWs (c : Char) : Bool :=
  c = ' ' || c = '\t' || c = '\n' || c = '\r'

/-- Value of one hexadecimal digit. -/
def hexVal (c : Char) : Option Nat :=
  if '0' ≤ c ∧ c ≤ '9' then some (c.toNat - 48)
  else if 'a' ≤ c ∧ c ≤ 'f' then some (c.toNat - 87)
  else if 'A' ≤ c ∧ c ≤ 'F' then some (c.toNat - 55)
  else none

/-- Body of a JSON string literal (opening quote already consumed);
returns the decoded string and the input after the closing quote. -/
def parseStringAux (acc : List Char) : List Char → Option (String × List Char)
  | [] => none
  | c :: rest =>
    if c = '\"' then some (acc.reverse.asString, rest)
    else if c = '\\' then
      match rest with
      | [] => none
      | e :: rest2 =>
        if e = '\"' || e = '\\' || e = '/' then parseStringAux (e :: acc) rest2
        else if e = 'n' then parseStringAux ('\n' :: acc) rest2
        else if e = 't' then parseStringAux ('\t' :: acc) rest2
        else if e = 'r' then parseStringAux ('\r' :: acc) rest2
        else if e = 'b' then parseStringAux (Char.ofNat 8 :: acc) rest2
        else if e = 'f' then parseStringAux (Char.ofNat 12 :: acc) rest2
        else if e = 'u' then
          match rest2 with
          | h1 :: h2 :: h3 :: h4 :: rest3 =>
            match hexVal h1, hexVal h2, hexVal h3, hexVal h4 with
            | some a, some b, some c2, some d =>
              parseStringAux (Char.ofNat (4096 * a + 256 * b + 16 * c2 + d) :: acc) rest3
            | _, _, _, _ => none
          | _ => none
        else none
    else parseStringAux (c :: acc) rest

/-- Digits of a decimal literal, accumulating their value. -/
def digitsToNat (acc : Nat) : List Char → Nat × List Char
  | [] => (acc, [])
  | c :: rest =>
    if c.isDigit then digitsToNat (acc * 10 + (c.toNat - 48)) rest
    else (acc, c :: rest)

/-- An (integral) JSON number literal. -/
def parseNumber (cs : List Char) : Option (Json × List Char) :=
  match cs with
  | '-' :: rest =>
    match rest with
    | c :: _ =>
      if c.isDigit then
        let p := digitsToNat 0 rest
        some (Json.num (-(p.1 : Int)), p.2)
      else none
    | [] => none
  | c :: _ =>
    if c.isDigit then
      let p := digitsToNat 0 cs
      some (Json.num (p.1 : Int), p.2)
    else none
  | [] => none

mutual

/-- Fuel-bounded recursive-descent model of `json.loads`: one JSON value,
returning the value and the unconsumed input. -/
def parseValue : Nat → List Char → Option (Json × List Char)
  | 0, _ => none
  | fuel + 1, cs =>
    match cs.dropWhile jsonWs with
    | [] => none
    | c :: rest =>
      if c = '\"' then
        match parseStringAux [] rest with
        | some (s, r) => some (Json.str s, r)
        | none => none
      else if c = lbrace then
        match rest.dropWhile jsonWs with
        | c2 :: r2 =>
          if c2 = rbrace then some (Json.obj [], r2)
          else parseObjMember fuel [] (c2 :: r2)
        | [] => none
      else if c = '[' then
        match rest.dropWhile jsonWs with
        | c2 :: r2 =>
          if c2 = ']' then some (Json.arr [], r2)
          else
            match parseValue fuel (c2 :: r2) with
            | some (v, r3) => parseArrRest fuel [v] (r3.dropWhile jsonWs)
            | none => none
        | [] => none
      else
        match c :: rest with
        | 't' :: 'r' :: 'u' :: 'e' :: r => some (Json.bool true, r)
        | 'f' :: 'a' :: 'l' :: 's' :: 'e' :: r => some (Json.bool false, r)
        | 'n' :: 'u' :: 'l' :: 'l' :: r => some (Json.null, r)
        | other => parseNumber other

/-- One `"key": value` object member followed by the rest of the object. -/
def parseObjMember : Nat → List (String × Json) → List Char → Option (Json × List Char)
  | 0, _, _ => none
  | fuel + 1, acc, cs =>
    match cs with
    | c :: rest =>
      if c = '\"' then
        match parseStringAux [] rest with
        | some (k, r1) =>
          match r1.dropWhile jsonWs with
          | ':' :: r2 =>
            match parseValue fuel r2 with
            | some (v, r3) => parseObjRest fuel ((k, v) :: acc) (r3.dropWhile jsonWs)
            | none => none
          | _ => none
        | none => none
      else none
    | [] => none

/-- After an object member: either the closing brace or a comma and
another member. -/
def parseObjRest : Nat → List (String × Json) → List Char → Option (Json × List Char)
  | 0, _, _ => none
  | fuel + 1, acc, cs =>
    match cs with
    | c :: rest =>
      if c = rbrace then some (Json.obj acc.reverse, rest)
      else if c = ',' then parseObjMember fuel acc (rest.dropWhile jsonWs)
      else none
    | [] => none

/-- After an array element: either the closing bracket or a comma and
another element. -/
def parseArrRest : Nat → List Json → List Char → Option (Json × List Char)
  | 0, _, _ => none
  | fuel + 1, acc, cs =>
    match cs with
    | c :: rest =>
      if c = ']' then some (Json.arr acc.reverse, rest)
      else if c = ',' then
        match parseValue fuel rest with
        | some (v, r2) => parseArrRest fuel (v :: acc) (r2.dropWhile jsonWs)
        | none => none
      else none
    | [] => none

end

/-- Model of `json.loads`: parse one value and require that only whitespace
follows (the fuel is generous: three units per input character cover every
recursive step, each of which consumes input). -/
def json_loads (s : String) : Option Json :=
  match parseValue (3 * s.length + 3) s.toList with
  | some (v, rest) => if rest.dropWhile jsonWs = [] then some v else none
  | none => none

/-- The stripping applied by `_parse_content_body`:
`body.strip().replace("\x00", "")`. -/
def stripContent (s : String) : String := removeNul (pyStrip s)

/-- `stripped and stripped[0] in ("\x7b", "[")`: non-empty and starting
with an opening brace or bracket. -/
def startsJson (s : String) : Bool :=
  match s.toList with
  | c :: _ => c = lbrace || c = '['
  | [] => false

/-- `RconV2Connection._parse_content_body`: strings are stripped,
NUL-cleaned and, when they look like nested JSON, re-parsed (falling back
to the cleaned string when that parse fails); all other values pass
through unchanged. -/
def parse_content_body : Json → Json
  | .str s =>
    let stripped := stripContent s
    if startsJson stripped then
      match json_loads stripped with
      | some v => v
      | none => .str stripped
    else .str stripped
  | body => body

/-- The distinct failure conditions raised as `RconV2Error` by the client
(the Python code uses a single exception class whose message identifies
the site; the payloads here carry the data interpolated into it). -/
inductive RconError where
  | connFailed (host : String) (port : Nat)
  | protocolError (msg : String)
  | desync (respId reqId : Nat) (name : String)
  | commandError (name : String) (code : Int) (msg : String)
deriving DecidableEq

/-- `str(exc)` for each `RconV2Error` raise site, following the exact
format strings of the source. -/
def renderError : RconError → String
  | .connFailed h p => "Failed to connect to " ++ h ++ ":" ++ toString p
  | .protocolError m => m
  | .desync respId reqId name =>
    "Response ID " ++ toString respId ++ " did not match request ID "
      ++ toString reqId ++ " for " ++ name
  | .commandError name code m =>
    name ++ " failed with status " ++ toString code ++ ": " ++ m

/-- `bytes(b ^ key[i % key_len] for i, b in enumerate(data))`, with `off`
the running value of `i`. -/
def xorWithKey (key : List Nat) : Nat → List Nat → List Nat
  | _, [] => []
  | off, b :: rest => (b ^^^ key.getD (off % key.length) 0) :: xorWithKey key (off + 1) rest

/-- `RconV2Connection._xor`: fails when no key is installed, otherwise
XORs each byte with the key byte at its index modulo the key length. -/
def xorTransform (data key : List Nat) : Except RconError (List Nat) :=
  if key.isEmpty then Except.error (.protocolError "XOR key has not been initialised")
  else Except.ok (xorWithKey key 0 data)

/-- One little-endian `uint32` as laid out by `struct.pack("<II", ...)`. -/
def le32Encode (n : Nat) : List Nat :=
  [n % 256, n / 256 % 256, n / 65536 % 256, n / 16777216 % 256]

/-- `struct.unpack` of one little-endian `uint32` from four bytes. -/
def le32Decode (a b c d : Nat) : Nat := a + 256 * b + 65536 * c + 16777216 * d

/-- `RconV2Connection._write`'s wire image: `header(id, len(body)) || body`. -/
def encodeFrame (id : Nat) (body : List Nat) : List Nat :=
  le32Encode id ++ le32Encode body.length ++ body

/-- `RconV2Connection._read` / `_read_exact` on the available byte stream:
read exactly 8 header bytes, unpack `(id, length)`, then read exactly
`length` body bytes; `none` models the `RconV2Error` raised when the
stream ends first. -/
def decodeFrame : List Nat → Option (Nat × Nat × List Nat)
  | a :: b :: c :: d :: e :: f :: g :: h :: rest =>
    let mid := le32Decode a b c d
    let len := le32Decode e f g h
    if len ≤ rest.length then some (mid, len, rest.take len) else none
  | _ => none

/-- A decoded response as assembled by `RconV2Connection._read` from a
well-formed envelope (integer `StatusCode`, string `StatusMessage`). -/
structure Response where
  id : Nat
  status_code : Int
  status_message : String
  name : String
  content : Json

/-- The checks `_send_command` applies to the response after reading it:
message-id correlation first, then the `StatusCode == 200` check; only a
response passing both is returned. -/
def processResponse (name : String) (message_id : Nat) (response : Response) :
    Except RconError Response :=
  if response.id ≠ message_id then
    Except.error (.desync response.id message_id name)
  else if response.status_code ≠ 200 then
    Except.error (.commandError name response.status_code response.status_message)
  else Except.ok response

/-- Handshake step B of `_perform_handshake`: the Login response content
must be a truthy string, and the stored token is its stripped form. -/
def loginStep (content : Json) : Except RconError String :=
  match content with
  | .str s =>
    if s = "" then Except.error (.protocolError "Login did not return an auth token")
    else Except.ok (pyStrip s)
  | _ => Except.error (.protocolError "Login did not return an auth token")

/-- `RCON_PROTOCOL_VERSION` from the source. -/
def RCON_PROTOCOL_VERSION : Int := 2

/-- The request envelope built by `_send_command` before serialisation. -/
def buildPayload (auth_token : String) (include_auth : Bool) (name : String)
    (content : Json) : List (String × Json) :=
  [("AuthToken", Json.str (if include_auth then auth_token else "")),
   ("Version", Json.num RCON_PROTOCOL_VERSION),
   ("Name", Json.str name),
   ("ContentBody", content)]

/-- `ServerConfig` from the source (a mutable dataclass). -/
structure ServerConfig where
  name : String
  host : String
  port : Nat
  password : String
deriving DecidableEq

/-- Python exceptions that the registry operations can let escape. -/
inductive PyExn where
  | indexError
  | attributeError
deriving DecidableEq

/-- Python list indexing `xs[i]`: non-negative indices from the front,
negative indices from the back, `none` models the `IndexError`. -/
def pyGet (xs : List ServerConfig) (i : Int) : Option ServerConfig :=
  if 0 ≤ i then xs.get? i.toNat
  else if -(xs.length : Int) ≤ i then xs.get? ((xs.length : Int) + i).toNat
  else none

/-- `server_information`: the response content when it is a mapping,
otherwise an empty mapping. -/
def serverInformationResult : Json → List (String × Json)
  | .obj xs => xs
  | _ => []

/-- `HLLAPIClient.get_current_map`, parameterised by the outcome of the
session's `serverInformation("session")` exchange (`Except.error` covers
connection, handshake and command failures, all caught by the
`except Exception` in the source). -/
def get_current_map (servers : List ServerConfig) (server_index : Int)
    (outcome : Except RconError Json) : Except PyExn String :=
  if (servers.length : Int) ≤ server_index then Except.ok "Unknown"
  else
    match pyGet servers server_index with
    | none => Except.error PyExn.indexError
    | some _server =>
      match outcome with
      | Except.error _ => Except.ok "Unknown"
      | Except.ok content =>
        match lookupJson "MapName" (serverInformationResult content) with
        | some v =>
          if v.truthy then
            match v with
            | Json.str s => Except.ok (pyStrip s)
            | _ => Except.error PyExn.attributeError
          else Except.ok "Unknown"
        | none => Except.ok "Unknown"

/-- `HLLAPIClient.set_map`, parameterised by the outcome of the
connect/handshake/`ChangeMap` exchange and of the best-effort
`serverInformation("session")` re-query (the latter only happens when the
change succeeded; its failure is swallowed by the inner `except`). -/
def set_map (servers : List ServerConfig) (server_index : Int) (map_id : String)
    (change : Except RconError Unit) (requery : Except RconError Json) :
    Except PyExn (Bool × String) :=
  if (servers.length : Int) ≤ server_index then Except.ok (false, "Invalid server index")
  else
    match pyGet servers server_index with
    | none => Except.error PyExn.indexError
    | some server =>
      match change with
      | Except.error e => Except.ok (false, renderError e)
      | Except.ok _ =>
        let new_map : Json :=
          match requery with
          | Except.error _ => Json.str ""
          | Except.ok content =>
            match lookupJson "MapName" (serverInformationResult content) with
            | some v => v
            | none => Json.str ""
        let pretty_map : String :=
          match new_map with
          | Json.str s => pyStrip s
          | _ => map_id
        Except.ok (true,
          "Successfully issued ChangeMap to "
            ++ (if pretty_map = "" then map_id else pretty_map)
            ++ " on " ++ server.name)

/-- One iteration of `HLLAPIClient._fetch_server_names`: on a successful
exchange whose session mapping carries a truthy string `ServerName`, the
server's `name` field is overwritten with its stripped value; every
failure (including the `AttributeError` from stripping a non-string) is
caught and leaves the record unchanged. -/
def fetch_one (server : ServerConfig) (outcome : Except RconError Json) : ServerConfig :=
  match outcome with
  | Except.error _ => server
  | Except.ok content =>
    match lookupJson "ServerName" (serverInformationResult content) with
    | some (Json.str s) =>
      if s = "" then server else { server with name := pyStrip s }
    | _ => server

/-- `HLLAPIClient._fetch_server_names` over the configured list, with the
per-server exchange outcomes supplied by position. -/
def fetch_server_names : List ServerConfig → (Nat → Except RconError Json) → List ServerConfig
  | [], _ => []
  | s :: rest, outcomes =>
    fetch_one s (outcomes 0) :: fetch_server_names rest (fun n => outcomes (n + 1))

theorem xorWithKey_involutive (key : List Nat) (off : Nat) (data : List Nat) :
    xorWithKey key off (xorWithKey key off data) = data := by
  induction data generalizing off with
  | nil => simp [xorWithKey]
  | cons b rest ih =>
    simp [xorWithKey, ih, Nat.xor_assoc]

/-- Claim C2: applying the session's `_xor` twice with the same non-empty
key returns the data unchanged. -/
theorem xor_involution (data key : List Nat) (hkey : key ≠ []) :
    ∃ enc, xorTransform data key = Except.ok enc ∧
      xorTransform enc key = Except.ok data := by
  obtain ⟨k, ks, rfl⟩ := List.exists_cons_of_ne_nil hkey
  exact ⟨xorWithKey (k :: ks) 0 data, by simp [xorTransform],
    by simp [xorTransform, xorWithKey_involutive]⟩

/-- Witness for claim C2 at `data = [1, 2, 3]`, `key = [170, 7]`. -/
theorem xor_involution_witness :
    ∃ enc, xorTransform [1, 2, 3] [170, 7] = Except.ok enc ∧
      xorTransform enc [170, 7] = Except.ok [1, 2, 3] :=
  xor_involution [1, 2, 3] [170, 7] (by decide)

theorem le32_roundtrip (n : Nat) (h : n < 4294967296) :
    le32Decode (n % 256) (n / 256 % 256) (n / 65536 % 256) (n / 16777216 % 256) = n := by
  simp [le32Decode]
  omega

/-- Claim C3: decoding an encoded frame yields back exactly the message
id, the body length and the body. -/
theorem frame_roundtrip (id : Nat) (body : List Nat)
    (hid : id < 4294967296) (hlen : body.length < 4294967296) :
    decodeFrame (encodeFrame id body) = some (id, body.length, body) := by
  simp only [encodeFrame, le32Encode, List.cons_append, List.nil_append, decodeFrame]
  rw [le32_roundtrip id hid, le32_roundtrip body.length hlen]
  simp [List.take_length]

/-- Witness for claim C3 at `id = 7`, `body = [9, 8, 7]`. -/
theorem frame_roundtrip_witness :
    decodeFrame (encodeFrame 7 [9, 8, 7]) = some (7, 3, [9, 8, 7]) :=
  frame_roundtrip 7 [9, 8, 7] (by decide) (by decide)

/-- Claim C1: when the response's message id differs from the request's,
`_send_command` fails with the desync `RconV2Error` and never returns the
response to the caller. -/
theorem send_command_desync (name : String) (message_id : Nat) (response : Response)
    (hmismatch : response.id ≠ message_id) :
    processResponse name message_id response
        = Except.error (RconError.desync response.id message_id name) ∧
    ∀ r, processResponse name message_id response ≠ Except.ok r := by
  refine ⟨by simp [processResponse, hmismatch], ?_⟩
  intro r
  simp [processResponse, hmismatch]

/-- Witness for claim C1 at a response with id 2 answering request id 1. -/
theorem send_command_desync_witness :
    processResponse "ChangeMap" 1 ⟨2, 200, "OK", "ChangeMap", Json.null⟩
      = Except.error (RconError.desync 2 1 "ChangeMap") :=
  (send_command_desync "ChangeMap" 1 ⟨2, 200, "OK", "ChangeMap", Json.null⟩ (by decide)).1

/-- Claim C5: with a matching message id, `_send_command` returns the
response exactly when `StatusCode == 200`, and any other status code
yields the command error carrying the command name, status code and
status message. -/
theorem send_command_status (name : String) (message_id : Nat) (response : Response)
    (hid : response.id = message_id) :
    (processResponse name message_id response = Except.ok response ↔
      response.status_code = 200) ∧
    (response.status_code ≠ 200 →
      processResponse name message_id response
        = Except.error
            (RconError.commandError name response.status_code response.status_message)) := by
  refine ⟨⟨?_, ?_⟩, ?_⟩
  · intro h
    by_contra hne
    simp [processResponse, hid, hne] at h
  · intro h200
    simp [processResponse, hid, h200]
  · intro hne
    simp [processResponse, hid, hne]

/-- Witness for claim C5 at a status-500 response with message "busy". -/
theorem send_command_status_witness :
    processResponse "ChangeMap" 1 ⟨1, 500, "busy", "ChangeMap", Json.null⟩
      = Except.error (RconError.commandError "ChangeMap" 500 "busy") :=
  (send_command_status "ChangeMap" 1 ⟨1, 500, "busy", "ChangeMap", Json.null⟩ rfl).2
    (by decide)

/-- Claim C8 (code bug): a whitespace-only Login token passes the
handshake's emptiness check, is stored as the empty string after
stripping, and every subsequent authenticated request envelope then
carries an empty `AuthToken`. -/
theorem login_whitespace_token_bug :
    loginStep (Json.str "   ") = Except.ok "" ∧
    lookupJson "AuthToken" (buildPayload "" true "ChangeMap" (Json.str "foy_warfare"))
      = some (Json.str "") := by
  exact ⟨rfl, rfl⟩

/-- Claim C4: `_parse_content_body` re-parses stripped, NUL-cleaned
strings that look like nested JSON (falling back to the cleaned string
when that parse fails), returns the cleaned string for every other
string, passes non-string values through unchanged, and in particular
decodes `"  \x7b\"a\":1\x7d\x00"` to the mapping and leaves
`"plain text"` alone. -/
theorem parse_content_body_spec :
    (∀ s : String, startsJson (stripContent s) = false →
      parse_content_body (Json.str s) = Json.str (stripContent s)) ∧
    (∀ (s : String) (v : Json), startsJson (stripContent s) = true →
      json_loads (stripContent s) = some v →
      parse_content_body (Json.str s) = v) ∧
    (∀ s : String, startsJson (stripContent s) = true →
      json_loads (stripContent s) = none →
      parse_content_body (Json.str s) = Json.str (stripContent s)) ∧
    (∀ xs, parse_content_body (Json.obj xs) = Json.obj xs) ∧
    (∀ xs, parse_content_body (Json.arr xs) = Json.arr xs) ∧
    (∀ n, parse_content_body (Json.num n) = Json.num n) ∧
    parse_content_body Json.null = Json.null ∧
    parse_content_body (Json.str ("  \x7b\"a\":1\x7d" ++ "\x00"))
      = Json.obj [("a", Json.num 1)] ∧
    parse_content_body (Json.str "plain text") = Json.str "plain text" := by
  refine ⟨?_, ?_, ?_, fun xs => rfl, fun xs => rfl, fun n => rfl, rfl, rfl, rfl⟩
  · intro s h
    simp [parse_content_body, h]
  · intro s v h hp
    simp [parse_content_body, h, hp]
  · intro s h hp
    simp [parse_content_body, h, hp]

/-- Witness for claim C4 at the plain string "hello world". -/
theorem parse_content_body_spec_witness :
    parse_content_body (Json.str "hello world") = Json.str (stripContent "hello world") :=
  parse_content_body_spec.1 "hello world" rfl

theorem pyGet_of_nonneg_lt (servers : List ServerConfig) (i : Int)
    (h0 : 0 ≤ i) (hN : i < (servers.length : Int)) :
    ∃ srv, pyGet servers i = some srv := by
  have hlt : i.toNat < servers.length := by omega
  refine ⟨servers.get ⟨i.toNat, hlt⟩, ?_⟩
  simp only [pyGet, if_pos h0]
  exact List.get?_eq_get hlt

/-- Claim C6: for a valid server index, `get_current_map` returns the
stripped `MapName` of the session query; a failed exchange, or a missing
or empty `MapName`, degrades to "Unknown" without raising. -/
theorem get_current_map_spec :
    (∀ (servers : List ServerConfig) (i : Int) (e : RconError),
      0 ≤ i → i < (servers.length : Int) →
      get_current_map servers i (Except.error e) = Except.ok "Unknown") ∧
    (∀ (servers : List ServerConfig) (i : Int) (content : Json) (s : String),
      0 ≤ i → i < (servers.length : Int) →
      lookupJson "MapName" (serverInformationResult content) = some (Json.str s) →
      s ≠ "" →
      get_current_map servers i (Except.ok content) = Except.ok (pyStrip s)) ∧
    (∀ (servers : List ServerConfig) (i : Int) (content : Json),
      0 ≤ i → i < (servers.length : Int) →
      (lookupJson "MapName" (serverInformationResult content) = none ∨
        lookupJson "MapName" (serverInformationResult content) = some (Json.str "")) →
      get_current_map servers i (Except.ok content) = Except.ok "Unknown") := by
  refine ⟨?_, ?_, ?_⟩
  · intro servers i e h0 hN
    obtain ⟨srv, hsrv⟩ := pyGet_of_nonneg_lt servers i h0 hN
    have hguard : ¬ ((servers.length : Int) ≤ i) := by omega
    simp [get_current_map, hguard, hsrv]
  · intro servers i content s h0 hN hlook hs
    obtain ⟨srv, hsrv⟩ := pyGet_of_nonneg_lt servers i h0 hN
    have hguard : ¬ ((servers.length : Int) ≤ i) := by omega
    simp [get_current_map, hguard, hsrv, hlook, Json.truthy, hs]
  · intro servers i content h0 hN hmiss
    obtain ⟨srv, hsrv⟩ := pyGet_of_nonneg_lt servers i h0 hN
    have hguard : ¬ ((servers.length : Int) ≤ i) := by omega
    rcases hmiss with hmiss | hmiss <;>
      simp [get_current_map, hguard, hsrv, hmiss, Json.truthy]

/-- Witness for claim C6: a session reporting `MapName = "foy_warfare "`
yields "foy_warfare" at index 0 of a one-server registry. -/
theorem get_current_map_spec_witness :
    get_current_map [⟨"HLL Server 1", "198.51.100.7", 7779, "pw"⟩] 0
        (Except.ok (Json.obj [("MapName", Json.str "foy_warfare ")]))
      = Except.ok (pyStrip "foy_warfare ") :=
  get_current_map_spec.2.1 [⟨"HLL Server 1", "198.51.100.7", 7779, "pw"⟩] 0
    (Json.obj [("MapName", Json.str "foy_warfare ")]) "foy_warfare "
    (by decide) (by decide) rfl (by decide)

/-- Claim C7: `set_map` reports success whenever the `ChangeMap` exchange
succeeds (even if the best-effort session re-query fails), reports
`(false, reason)` for an out-of-range index and for every failure of the
change itself — with the status message of a non-200 reply included in
the reason — and never raises for any non-negative index. -/
theorem set_map_spec :
    (∀ (servers : List ServerConfig) (i : Int) (mid : String)
        (rq : Except RconError Json),
      0 ≤ i → i < (servers.length : Int) →
      ∃ msg, set_map servers i mid (Except.ok ()) rq = Except.ok (true, msg)) ∧
    (∀ (servers : List ServerConfig) (i : Int) (mid : String)
        (chg : Except RconError Unit) (rq : Except RconError Json),
      (servers.length : Int) ≤ i →
      set_map servers i mid chg rq = Except.ok (false, "Invalid server index")) ∧
    (∀ (servers : List ServerConfig) (i : Int) (mid : String) (e : RconError)
        (rq : Except RconError Json),
      0 ≤ i → i < (servers.length : Int) →
      set_map servers i mid (Except.error e) rq = Except.ok (false, renderError e)) ∧
    (∀ (name : String) (code : Int) (m : String),
      ∃ a, renderError (RconError.commandError name code m) = a ++ m) ∧
    (∀ (servers : List ServerConfig) (i : Int) (mid : String)
        (chg : Except RconError Unit) (rq : Except RconError Json),
      0 ≤ i → ∃ r, set_map servers i mid chg rq = Except.ok r) := by
  refine ⟨?_, ?_, ?_, ?_, ?_⟩
  · intro servers i mid rq h0 hN
    obtain ⟨srv, hsrv⟩ := pyGet_of_nonneg_lt servers i h0 hN
    have hguard : ¬ ((servers.length : Int) ≤ i) := by omega
    unfold set_map
    rw [if_neg hguard, hsrv]
    exact ⟨_, rfl⟩
  · intro servers i mid chg rq hguard
    simp [set_map, hguard]
  · intro servers i mid e rq h0 hN
    obtain ⟨srv, hsrv⟩ := pyGet_of_nonneg_lt servers i h0 hN
    have hguard : ¬ ((servers.length : Int) ≤ i) := by omega
    unfold set_map
    rw [if_neg hguard, hsrv]
  · intro name code m
    exact ⟨name ++ " failed with status " ++ toString code ++ ": ", rfl⟩
  · intro servers i mid chg rq h0
    by_cases hguard : (servers.length : Int) ≤ i
    · exact ⟨_, by unfold set_map; rw [if_pos hguard]⟩
    · obtain ⟨srv, hsrv⟩ := pyGet_of_nonneg_lt servers i h0 (by omega)
      cases chg with
      | error e =>
        refine ⟨(false, renderError e), ?_⟩
        unfold set_map
        rw [if_neg hguard, hsrv]
      | ok u =>
        unfold set_map
        rw [if_neg hguard, hsrv]
        exact ⟨_, rfl⟩

/-- Witness for claim C7: a failed `ChangeMap` with status 500 and
message "busy" at index 0 of a one-server registry yields a `(false, _)`
result whose reason renders the status message. -/
theorem set_map_spec_witness :
    set_map [⟨"HLL Server 1", "198.51.100.7", 7779, "pw"⟩] 0 "foy_warfare"
        (Except.error (RconError.commandError "ChangeMap" 500 "busy"))
        (Except.error (RconError.protocolError "x"))
      = Except.ok (false, renderError (RconError.commandError "ChangeMap" 500 "busy")) :=
  set_map_spec.2.2.1 [⟨"HLL Server 1", "198.51.100.7", 7779, "pw"⟩] 0 "foy_warfare"
    (RconError.commandError "ChangeMap" 500 "busy")
    (Except.error (RconError.protocolError "x")) (by decide) (by decide)

theorem fetch_one_preserves (server : ServerConfig) (o : Except RconError Json) :
    (fetch_one server o).host = server.host ∧
    (fetch_one server o).port = server.port ∧
    (fetch_one server o).password = server.password := by
  cases o with
  | error e => simp [fetch_one]
  | ok content =>
    simp only [fetch_one]
    cases hv : lookupJson "ServerName" (serverInformationResult content) with
    | none => simp
    | some v =>
      cases v <;> simp
      split <;> simp

/-- Counterexample for claim C9: the startup name fetch overwrites the
configured `name` field with the server-reported `ServerName`, so the
record is not immutable after configuration loading. -/
theorem server_name_mutation_counterexample :
    fetch_server_names [⟨"HLL Server 1", "198.51.100.7", 7779, "pw"⟩]
        (fun _ => Except.ok (Json.obj [("ServerName", Json.str "Real Name")]))
      = [⟨"Real Name", "198.51.100.7", 7779, "pw"⟩]
    ∧ ("Real Name" : String) ≠ "HLL Server 1" := by
  exact ⟨rfl, by decide⟩

/-- Claim C9 (amended): the `host`, `port` and `password` fields of every
configured endpoint are unchanged by the startup name fetch (and no other
registry operation assigns to an endpoint); only `name` may be
overwritten there with the server-reported `ServerName`. -/
theorem fetch_server_names_preserves_endpoint :
    ∀ (servers : List ServerConfig) (outcomes : Nat → Except RconError Json) (j : Nat),
      ((fetch_server_names servers outcomes).get? j).map ServerConfig.host
          = (servers.get? j).map ServerConfig.host ∧
      ((fetch_server_names servers outcomes).get? j).map ServerConfig.port
          = (servers.get? j).map ServerConfig.port ∧
      ((fetch_server_names servers outcomes).get? j).map ServerConfig.password
          = (servers.get? j).map ServerConfig.password := by
  intro servers
  induction servers with
  | nil => intro outcomes j; simp [fetch_server_names]
  | cons s rest ih =>
    intro outcomes j
    cases j with
    | zero => simpa [fetch_server_names] using fetch_one_preserves s (outcomes 0)
    | succ n => simpa [fetch_server_names] using ih (fun m => outcomes (m + 1)) n

theorem pyGet_neg (servers : List ServerConfig) (i : Int)
    (h1 : -(servers.length : Int) ≤ i) (h2 : i < 0) :
    pyGet servers i = pyGet servers ((servers.length : Int) + i) := by
  have hni : ¬ (0 ≤ i) := by omega
  have h0j : 0 ≤ (servers.length : Int) + i := by omega
  simp [pyGet, hni, h1, h0j]

theorem pyGet_oob (servers : List ServerConfig) (i : Int)
    (h : i < -(servers.length : Int)) :
    pyGet servers i = none := by
  have hni : ¬ (0 ≤ i) := by omega
  have hnn : ¬ (-(servers.length : Int) ≤ i) := by omega
  simp [pyGet, hni, hnn]

/-- Counterexample for claim C10: the index -2 on a one-server registry
escapes the `server_index >= len(...)` guard and makes the list access
raise an uncaught `IndexError`, so an index value does make the
operation raise an out-of-bounds error. -/
theorem negative_index_counterexample :
    get_current_map [⟨"HLL Server 1", "198.51.100.7", 7779, "pw"⟩] (-2)
        (Except.ok (Json.obj [("MapName", Json.str "foy_warfare")]))
      = Except.error PyExn.indexError := by
  rfl

/-- Claim C10 (amended): the bounds check only rejects indices at or
above the server count; a negative index `i` with `-N ≤ i < 0` runs the
operation against the server at position `N + i`, while an index below
`-N` escapes the guard and raises an uncaught `IndexError` in both
`get_current_map` and `set_map`. -/
theorem negative_index_amended :
    (∀ (servers : List ServerConfig) (i : Int) (outcome : Except RconError Json),
      -(servers.length : Int) ≤ i → i < 0 →
      get_current_map servers i outcome
        = get_current_map servers ((servers.length : Int) + i) outcome) ∧
    (∀ (servers : List ServerConfig) (i : Int) (mid : String)
        (chg : Except RconError Unit) (rq : Except RconError Json),
      -(servers.length : Int) ≤ i → i < 0 →
      set_map servers i mid chg rq
        = set_map servers ((servers.length : Int) + i) mid chg rq) ∧
    (∀ (servers : List ServerConfig) (i : Int) (outcome : Except RconError Json),
      i < -(servers.length : Int) →
      get_current_map servers i outcome = Except.error PyExn.indexError) ∧
    (∀ (servers : List ServerConfig) (i : Int) (mid : String)
        (chg : Except RconError Unit) (rq : Except RconError Json),
      i < -(servers.length : Int) →
      set_map servers i mid chg rq = Except.error PyExn.indexError) := by
  refine ⟨?_, ?_, ?_, ?_⟩
  · intro servers i outcome h1 h2
    have hg1 : ¬ ((servers.length : Int) ≤ i) := by omega
    have hg2 : ¬ ((servers.length : Int) ≤ (servers.length : Int) + i) := by omega
    unfold get_current_map
    rw [if_neg hg1, if_neg hg2, pyGet_neg servers i h1 h2]
  · intro servers i mid chg rq h1 h2
    have hg1 : ¬ ((servers.length : Int) ≤ i) := by omega
    have hg2 : ¬ ((servers.length : Int) ≤ (servers.length : Int) + i) := by omega
    unfold set_map
    rw [if_neg hg1, if_neg hg2, pyGet_neg servers i h1 h2]
  · intro servers i outcome h
    have hg : ¬ ((servers.length : Int) ≤ i) := by omega
    unfold get_current_map
    rw [if_neg hg, pyGet_oob servers i h]
  · intro servers i mid chg rq h
    have hg : ¬ ((servers.length : Int) ≤ i) := by omega
    unfold set_map
    rw [if_neg hg, pyGet_oob servers i h]

/-- Witness for claim C10 (amended): index -1 on a one-server registry
behaves as index 0. -/
theorem negative_index_amended_witness :
    get_current_map [⟨"HLL Server 1", "198.51.100.7", 7779, "pw"⟩] (-1)
        (Except.error (RconError.protocolError "x"))
      = get_current_map [⟨"HLL Server 1", "198.51.100.7", 7779, "pw"⟩]
          ((([⟨"HLL Server 1", "198.51.100.7", 7779, "pw"⟩] : List ServerConfig).length : Int) + (-1))
          (Except.error (RconError.protocolError "x")) :=
  negative_index_amended.1 [⟨"HLL Server 1", "198.51.100.7", 7779, "pw"⟩] (-1)
    (Except.error (RconError.protocolError "x")) (by decide) (by decide)
